import Mathlib

/-!
Shallow embedding of the AptRouter API core (provider adapters, stream
normalizers, optimizer, pricing/metering engine) together with theorems
settling the specification claims.

Conventions of the embedding:
* Go `float64` currency/markup arithmetic is modelled with exact rationals
  (`ℚ`); the spec states all cost formulas in real arithmetic.
* Go `int` / `int64` / `int32` token counts are modelled with `Int` or, where
  the source only ever compares against `0` from below, with `Nat`.
* External effects (Firestore lookups, backend HTTP calls) are passed in as
  explicit values: a store is a list of documents, a backend call result is an
  `Except` value.
* Go maps used as sets of documents keep list order; where Go map iteration
  order is unspecified (noted at the definition) the source textual order is
  used.
-/

deriving instance DecidableEq for Except

namespace AptRouter

/-! Section: Data model (internal/firebase/service.go) -/

/-- Structure `User` (firebase/service.go lines 31-40); timestamps omitted, currency as `ℚ`. -/
structure User where
  id : String
  email : String
  balance : ℚ
  tierID : String
  isActive : Bool
  customPricing : Bool
deriving DecidableEq

/-- Structure `ModelPricing` (firebase/service.go lines 55-60). -/
structure ModelPricing where
  modelID : String
  provider : String
  inputPricePerMillion : ℚ
  outputPricePerMillion : ℚ
deriving DecidableEq

/-- Structure `PricingTier` (firebase/service.go lines 43-52).  The Go
`map[string]ModelPricing` field is modelled as an association list wrapped in
`Option` so that a `nil` map is distinguishable from an empty one, exactly as
the source's `tier.CustomModelPricing != nil` test requires. -/
structure PricingTier where
  id : String
  name : String
  minMonthlySpend : ℚ
  inputMarkupPercent : ℚ
  outputMarkupPercent : ℚ
  isActive : Bool
  isCustom : Bool
  customModelPricing : Option (List (String × ModelPricing))
deriving DecidableEq

/-! Section: Firebase service operations -/

/-- Function `Service.GetPricingTier` (firebase/service.go 199-211): Firestore document
lookup of `pricing_tiers/tierID`; the store is modelled as the list of tier
documents. -/
def getPricingTier (tiers : List PricingTier) (tierID : String) : Option PricingTier :=
  tiers.find? (fun t => t.id == tierID)

/-- The filter of `Service.GetDefaultPricingTier`'s Firestore query:
`is_active == true` and `is_custom == false`. -/
def isDefaultCandidate (t : PricingTier) : Bool :=
  t.isActive && !t.isCustom

/-- Accumulator step realizing `OrderBy("min_monthly_spend", Asc).Limit(1)`:
keep the first document with minimal `min_monthly_spend`. -/
def pickMinSpend (acc : Option PricingTier) (t : PricingTier) : Option PricingTier :=
  match acc with
  | none => some t
  | some b => if t.minMonthlySpend < b.minMonthlySpend then some t else some b

/-- Function `Service.GetDefaultPricingTier` (firebase/service.go 214-229): the active,
non-custom tier with the lowest `min_monthly_spend` (first such document on
ties). -/
def getDefaultPricingTier (tiers : List PricingTier) : Option PricingTier :=
  (tiers.filter isDefaultCandidate).foldl pickMinSpend none

/-- Lookup in the custom-pricing association list (the Go
`tier.CustomModelPricing[modelID]` map access). -/
def lookupModelPricing (m : List (String × ModelPricing)) (modelID : String) :
    Option ModelPricing :=
  (m.find? (fun p => p.1 == modelID)).map (fun p => p.2)

/-- Function `Service.CalculateCost` (firebase/service.go 232-267).  Returns
`(totalCost, totalMarkup)` on success.  Tier lookup failure falls back to the
default tier; only if that also fails is an error returned. -/
def calculateCost (tiers : List PricingTier) (user : User) (modelID : String)
    (inputTokens outputTokens : ℤ) (baseInputPrice baseOutputPrice : ℚ) :
    Except String (ℚ × ℚ) :=
  let tierResolved : Option PricingTier :=
    match getPricingTier tiers user.tierID with
    | some t => some t
    | none => getDefaultPricingTier tiers
  match tierResolved with
  | none => .error "failed to get pricing tier"
  | some tier =>
    let prices : ℚ × ℚ :=
      if user.customPricing && tier.isCustom && tier.customModelPricing.isSome then
        match tier.customModelPricing with
        | some m =>
          match lookupModelPricing m modelID with
          | some mp => (mp.inputPricePerMillion, mp.outputPricePerMillion)
          | none => (baseInputPrice, baseOutputPrice)
        | none => (baseInputPrice, baseOutputPrice)
      else (baseInputPrice, baseOutputPrice)
    let inputCost : ℚ := ((inputTokens : ℚ) / 1000000) * prices.1
    let outputCost : ℚ := ((outputTokens : ℚ) / 1000000) * prices.2
    let baseCost : ℚ := inputCost + outputCost
    let inputMarkup : ℚ := inputCost * (tier.inputMarkupPercent / 100)
    let outputMarkup : ℚ := outputCost * (tier.outputMarkupPercent / 100)
    let totalMarkup : ℚ := inputMarkup + outputMarkup
    .ok (baseCost + totalMarkup, totalMarkup)

/-- Transaction body of `Service.UpdateUserBalance` (firebase/service.go
300-339): add `amount` to the balance and abort with an insufficient-balance
error when the result would be negative. -/
def updateUserBalance (user : User) (amount : ℚ) : Except String User :=
  let newBalance := user.balance + amount
  if newBalance < 0 then
    .error "insufficient balance"
  else
    .ok { user with balance := newBalance }

/-! Section: GenerationService cost formula (services/generation_service.go 890-902) -/

/-- Structure `ModelConfig` (services/pricing_service.go 23-31). -/
structure ModelConfig where
  id : String
  modelID : String
  provider : String
  inputPricePerMillion : ℚ
  outputPricePerMillion : ℚ
  contextWindowSize : ℤ
  isActive : Bool
deriving DecidableEq

/-- Function `GenerationService.CalculateCost` (services/generation_service.go 890-902);
takes the model's public prices and the tier's markups directly. -/
def gsCalculateCost (inputTokens outputTokens : ℤ) (mc : ModelConfig)
    (inputMarkupPercent outputMarkupPercent : ℚ) : ℚ :=
  let inputCost : ℚ := (inputTokens : ℚ) * mc.inputPricePerMillion / 1000000
  let outputCost : ℚ := (outputTokens : ℚ) * mc.outputPricePerMillion / 1000000
  let baseCost : ℚ := inputCost + outputCost
  let inputMarkup : ℚ := inputCost * (inputMarkupPercent / 100)
  let outputMarkup : ℚ := outputCost * (outputMarkupPercent / 100)
  let totalMarkup : ℚ := inputMarkup + outputMarkup
  baseCost + totalMarkup

/-! Spec-side cost formulas (spec §4.4 steps 4-6), used to compare the code's
cost functions against the specification's words. -/

/-- Spec step 4: `baseCost = inputTokens/1e6 * inputPrice + outputTokens/1e6 * outputPrice`. -/
def specBaseCost (inputTokens outputTokens : ℤ) (inputPrice outputPrice : ℚ) : ℚ :=
  (inputTokens : ℚ) / 1000000 * inputPrice + (outputTokens : ℚ) / 1000000 * outputPrice

/-- Spec step 5: `markup = inputCost * inputMarkupPercent/100 + outputCost * outputMarkupPercent/100`. -/
def specMarkup (inputTokens outputTokens : ℤ) (inputPrice outputPrice inMk outMk : ℚ) : ℚ :=
  ((inputTokens : ℚ) / 1000000 * inputPrice) * (inMk / 100)
    + ((outputTokens : ℚ) / 1000000 * outputPrice) * (outMk / 100)

/-- Spec step 6: `total = baseCost + markup`. -/
def specTotal (inputTokens outputTokens : ℤ) (inputPrice outputPrice inMk outMk : ℚ) : ℚ :=
  specBaseCost inputTokens outputTokens inputPrice outputPrice
    + specMarkup inputTokens outputTokens inputPrice outputPrice inMk outMk

/-! Section: Provider errors and adapter error classification
(internal/data/llm_openai.go, llm_anthropic.go, and the Google client) -/

/-- Structure `ProviderError` fields (data package). -/
structure ProviderErrorE where
  provider : String
  modelID : String
  statusCode : ℤ
  errorCode : String
  message : String
  retryable : Bool
deriving DecidableEq

/-- Retryability classification shared verbatim by the OpenAI client
(llm_openai.go 75-81) and the Google client (part_006 98-104):
`retryable := true`; the listed caller/quota codes force `false`; a 5xx code
forces `true`; otherwise the initial `true` stands. -/
def classifyRetryable (statusCode : ℤ) : Bool :=
  let retryable := true
  if statusCode == 401 || statusCode == 402 || statusCode == 403
      || statusCode == 404 || statusCode == 429 then
    false
  else if decide (500 ≤ statusCode) && decide (statusCode < 600) then
    true
  else
    retryable

/-- Status-code extraction in the Google client's error path (part_006 83-97):
an `APIError`'s code is used only when it lies in the HTTP range 100-599,
otherwise the status code is treated as unknown (`0`). -/
def googleStatusCode (hasAPIError : Bool) (rawCode : ℤ) : ℤ :=
  if hasAPIError then
    if rawCode < 100 || rawCode > 599 then 0 else rawCode
  else 0

/-- The error branch of `AnthropicClient.GenerateWithParams`
(llm_anthropic.go 89-97): the error is wrapped with `Retryable: true`
unconditionally; no status code is extracted from the failure. -/
def anthropicGenerateError (modelID errMsg : String) : ProviderErrorE :=
  { provider := "anthropic"
    modelID := modelID
    statusCode := 0
    errorCode := ""
    message := "API call failed: " ++ errMsg
    retryable := true }

/-! Section: Adapter usage extraction on successful blocking calls -/

/-- Usage population in `OpenAIClient.GenerateWithParams` (llm_openai.go
106-121): the backend's reported counts are used when either is positive,
otherwise both returned counts are zero (no tokenizer estimate). -/
def openAIReportedUsage (promptTokens completionTokens : ℕ) : ℕ × ℕ :=
  if decide (0 < promptTokens) || decide (0 < completionTokens) then
    (promptTokens, completionTokens)
  else (0, 0)

/-- Usage population in `GoogleClient.GenerateWithParams` (part_006 135-150):
requires a present `UsageMetadata` with a positive count, otherwise zero. -/
def googleReportedUsage (usageMetadata : Option (ℕ × ℕ)) : ℕ × ℕ :=
  match usageMetadata with
  | some (p, c) => if decide (0 < p) || decide (0 < c) then (p, c) else (0, 0)
  | none => (0, 0)

/-- Usage population in `AnthropicClient.GenerateWithParams` (llm_anthropic.go
119-135): same guard as the OpenAI client. -/
def anthropicReportedUsage (inputTokens outputTokens : ℕ) : ℕ × ℕ :=
  if decide (0 < inputTokens) || decide (0 < outputTokens) then
    (inputTokens, outputTokens)
  else (0, 0)

/-! Section: Stream normalizer usage latches -/

/-- The usage-latch portion of a stream reader's state (`inputTokens`,
`outputTokens`, `usageFound` fields of `OpenAIStreamReader` /
`GoogleStreamReader`). -/
structure UsageLatch where
  inputTokens : ℕ
  outputTokens : ℕ
  usageFound : Bool
deriving DecidableEq

/-- Initial latch state: zero usage, nothing found. -/
def initLatch : UsageLatch := ⟨0, 0, false⟩

/-- The usage inspection performed by `OpenAIStreamReader.Read` on one chunk
(llm_openai.go 272-280): latch the chunk's usage only when nothing has been
latched yet and the chunk reports a positive count. -/
def openAIUsageStep (s : UsageLatch) (chunkUsage : ℕ × ℕ) : UsageLatch :=
  if !s.usageFound && (decide (0 < chunkUsage.1) || decide (0 < chunkUsage.2)) then
    ⟨chunkUsage.1, chunkUsage.2, true⟩
  else s

/-- Latch state after the OpenAI reader has processed a whole stream of
chunks. -/
def openAIUsageRun (chunks : List (ℕ × ℕ)) : UsageLatch :=
  chunks.foldl openAIUsageStep initLatch

/-- One unit of a Google stream as seen by `GoogleStreamReader.Read`:
the optional `UsageMetadata` (prompt count, candidates count) and whether the
response has no candidates/content parts. -/
structure GoogleUnit where
  usageMetadata : Option (ℕ × ℕ)
  candidatesEmpty : Bool
deriving DecidableEq

/-- The three usage-inspection blocks of `GoogleStreamReader.Read`
(part_006 lines 299-308, 310-322 and 334-344), executed in order on one
received response. -/
def googleUsageStep (s : UsageLatch) (u : GoogleUnit) : UsageLatch :=
  -- lines 300-308: first latch, values written even when both counts are zero
  let s1 : UsageLatch :=
    match u.usageMetadata with
    | some (p, c) =>
      if !s.usageFound then ⟨p, c, decide (0 < p) || decide (0 < c)⟩ else s
    | none => s
  -- lines 311-322: retry on a content-free (possibly final) chunk
  let s2 : UsageLatch :=
    if !s1.usageFound && u.candidatesEmpty then
      match u.usageMetadata with
      | some (p, c) => ⟨p, c, decide (0 < p) || decide (0 < c)⟩
      | none => s1
    else s1
  -- lines 334-344: unconditional re-check; overwrites when not yet found or
  -- when both counts are positive, and always sets `usageFound`
  match u.usageMetadata with
  | some (p, c) =>
    if !s2.usageFound || (decide (0 < p) && decide (0 < c)) then ⟨p, c, true⟩ else s2
  | none => s2

/-- Latch state after the Google reader has processed a whole stream. -/
def googleUsageRun (units : List GoogleUnit) : UsageLatch :=
  units.foldl googleUsageStep initLatch

/-- Spec-side ("the backend's last word on usage wins"): the last usage report
in the stream with a non-zero count. -/
def specLastNonZeroUsage (chunks : List (ℕ × ℕ)) : Option (ℕ × ℕ) :=
  chunks.foldl
    (fun acc c => if decide (0 < c.1) || decide (0 < c.2) then some c else acc) none

/-- The first usage report in the stream with a non-zero count (what the
OpenAI reader actually latches). -/
def firstNonZeroUsage (chunks : List (ℕ × ℕ)) : Option (ℕ × ℕ) :=
  chunks.find? (fun c => decide (0 < c.1) || decide (0 < c.2))

/-! Section: EnhancedStreamReader metering lifecycle
(services/generation_service.go 139-183, 185-317) -/

/-- The lifecycle-relevant state of `EnhancedStreamReader`: the `Closed` and
`UsageLogged` flags, plus a count of completed `logUsage` passes (each pass
emits the audit log and charges the user). -/
structure ESRState where
  closed : Bool
  usageLogged : Bool
  meterCount : ℕ
deriving DecidableEq

/-- Initial `EnhancedStreamReader` state (generation_service.go 626-627). -/
def esrInit : ESRState := ⟨false, false, 0⟩

/-- Events driving the reader: a `Read` call whose underlying read returns
EOF or not, and a `Close` call. -/
inductive ESREvent where
  | read (eof : Bool)
  | close
deriving DecidableEq

/-- One step of the `EnhancedStreamReader` lifecycle.
`Read` (lines 139-158): returns immediately when closed; when the underlying
stream reports EOF and usage is not yet logged it only sets `UsageLogged`
("Don't call logUsage() here - defer it to Close()").
`Close` (lines 169-183): sets `Closed` and runs `logUsage` (one metering and
audit-log pass, lines 185-317, which finally sets `UsageLogged`) only if
`UsageLogged` is still unset. -/
def esrStep (s : ESRState) (e : ESREvent) : ESRState :=
  match e with
  | .read eof =>
    if s.closed then s
    else if eof && !s.usageLogged then { s with usageLogged := true }
    else s
  | .close =>
    let s' : ESRState := { s with closed := true }
    if !s'.usageLogged then
      { s' with usageLogged := true, meterCount := s'.meterCount + 1 }
    else s'

/-- Run the reader lifecycle over a sequence of calls. -/
def esrRun (events : List ESREvent) : ESRState :=
  events.foldl esrStep esrInit

/-! Section: Optimizer (services/optimizer_service.go)

The rule-based pass `applyRuleBasedOptimizations` (lines 242-294) is a
pipeline of Go `regexp.ReplaceAllString` calls; each is embedded as a direct
string scanner.  Scanners that skip over a matched pattern take an explicit
`fuel` argument for structural termination; callers pass `fuel = length + 1`,
which is always sufficient since every step consumes at least one character. -/

/-- RE2 `\s` character class: `[\t\n\f\r ]`. -/
def isGoRegexSpace (c : Char) : Bool :=
  c = ' ' || c = '\t' || c = '\n' || c = '\x0c' || c = '\r'

/-- Go `strings.TrimSpace` cut set (`unicode.IsSpace`, restricted to ASCII). -/
def isGoTrimSpace (c : Char) : Bool :=
  c = ' ' || c = '\t' || c = '\n' || c = '\x0b' || c = '\x0c' || c = '\r'

/-- RE2 `\w` word-character class `[0-9A-Za-z_]`, as used by `\b`. -/
def isWordChar (c : Char) : Bool :=
  c.isAlphanum || c = '_'

/-- Go `ReplaceAllString` of a character-class-plus pattern (`\s+`, `[.!?]+`,
`[,;]+`) with a single character: collapse each maximal run of class members
to one `rep`. -/
def collapseRunsAux (member : Char → Bool) (rep : Char) (inRun : Bool) :
    List Char → List Char
  | [] => []
  | c :: rest =>
    if member c then
      if inRun then collapseRunsAux member rep true rest
      else rep :: collapseRunsAux member rep true rest
    else c :: collapseRunsAux member rep false rest

/-- Trim characters satisfying `f` from both ends of a character list. -/
def trimCharList (f : Char → Bool) (l : List Char) : List Char :=
  ((l.dropWhile f).reverse.dropWhile f).reverse

/-- Case-insensitive character comparison (`(?i)` matching on ASCII). -/
def lowerEq (a b : Char) : Bool :=
  a.toLower == b.toLower

/-- Does `pat` match case-insensitively at the head of `s`? -/
def matchesCIAt : List Char → List Char → Bool
  | [], _ => true
  | _ :: _, [] => false
  | p :: ps, c :: cs => lowerEq p c && matchesCIAt ps cs

/-- Go `regexp.ReplaceAllString` for a literal pattern, optionally `(?i)\b...\b`
anchored at word boundaries: leftmost non-overlapping matches are replaced by
`rep`; scanning resumes after each match.  `prev` is the previously scanned
original character (for the left `\b` test). -/
def replaceAllCI (useBoundary : Bool) (pat rep : List Char) :
    ℕ → Option Char → List Char → List Char
  | 0, _, s => s
  | _ + 1, _, [] => []
  | fuel + 1, prev, c :: rest =>
    let leftOK : Bool := !useBoundary ||
      (match prev with
       | none => true
       | some q => !isWordChar q)
    if leftOK && matchesCIAt pat (c :: rest) then
      let after := (c :: rest).drop pat.length
      let rightOK : Bool := !useBoundary ||
        (match after.head? with
         | none => true
         | some q => !isWordChar q)
      if rightOK then
        let lastMatched := ((c :: rest).take pat.length).getLastD c
        rep ++ replaceAllCI useBoundary pat rep fuel (some lastMatched) after
      else
        c :: replaceAllCI useBoundary pat rep fuel (some c) rest
    else
      c :: replaceAllCI useBoundary pat rep fuel (some c) rest

/-- Literal `"as far as "` — the literal head of the one wildcard phrase pattern. -/
def afaHead : List Char := "as far as ".data

/-- Literal `" is concerned"` — the literal tail of the wildcard phrase pattern. -/
def afaTail : List Char := " is concerned".data

/-- Given the text following a matched `"as far as "`, find the number of
characters consumed by a greedy `.*` (no newline) followed by
`" is concerned"`: the largest such extent, or `none` when the pattern cannot
complete here. -/
def afaWildcardExtent (s : List Char) : Option ℕ :=
  (List.range (s.length + 1)).foldl
    (fun best k =>
      if (s.take k).all (fun c => c ≠ '\n') && matchesCIAt afaTail (s.drop k) then
        some k
      else best)
    none

/-- Go `ReplaceAllString` for the pattern `(?i)as far as .* is concerned` with
replacement `"regarding"` (leftmost match, greedy `.*`). -/
def replaceAsFarAs : ℕ → List Char → List Char
  | 0, s => s
  | _ + 1, [] => []
  | fuel + 1, c :: rest =>
    if matchesCIAt afaHead (c :: rest) then
      match afaWildcardExtent ((c :: rest).drop afaHead.length) with
      | some k =>
        "regarding".data ++
          replaceAsFarAs fuel ((c :: rest).drop (afaHead.length + k + afaTail.length))
      | none => c :: replaceAsFarAs fuel rest
    else c :: replaceAsFarAs fuel rest

/-- The `unnecessaryWords` list (optimizer_service.go 254-262), each removed
via `(?i)\b...\b` replacement with the empty string. -/
def unnecessaryWords : List String :=
  ["please", "kindly", "if you could", "would you mind",
   "i would like to", "i want to", "i need to",
   "in order to", "so that", "in such a way that",
   "very", "really", "quite", "rather",
   "basically", "essentially", "fundamentally",
   "as a matter of fact", "in fact", "actually",
   "you know", "i mean", "like", "sort of", "kind of"]

/-- The `redundantPhrases` map (optimizer_service.go 270-282) in source
textual order.  (The Go source iterates this map in unspecified order; the
phrases are mutually non-overlapping, and none of the claims depends on the
order.) -/
def redundantPhrases : List (String × String) :=
  [("in the event that", "if"),
   ("at this point in time", "now"),
   ("due to the fact that", "because"),
   ("in spite of the fact that", "although"),
   ("with regard to", "regarding"),
   ("with respect to", "regarding"),
   ("in terms of", "regarding"),
   ("as far as .* is concerned", "regarding"),
   ("it is important to note that", ""),
   ("it should be noted that", ""),
   ("it is worth mentioning that", "")]

/-- One filler-word removal pass. -/
def removeWordCI (w : String) (s : List Char) : List Char :=
  replaceAllCI true w.data [] (s.length + 1) none s

/-- One redundant-phrase replacement pass; the single wildcard pattern is
dispatched to its dedicated scanner. -/
def replacePhraseCI (pat rep : String) (s : List Char) : List Char :=
  if pat = "as far as .* is concerned" then replaceAsFarAs (s.length + 1) s
  else replaceAllCI false pat.data rep.data (s.length + 1) none s

/-- Function `Optimizer.applyRuleBasedOptimizations` (optimizer_service.go 242-294):
collapse whitespace, trim, collapse duplicated punctuation, strip filler
words, rewrite redundant phrases, collapse whitespace again, trim. -/
def applyRuleBasedOptimizations (text : String) : String :=
  let o := text.data
  let o := collapseRunsAux isGoRegexSpace ' ' false o
  let o := trimCharList isGoTrimSpace o
  let o := collapseRunsAux (fun c => c = '.' || c = '!' || c = '?') '.' false o
  let o := collapseRunsAux (fun c => c = ',' || c = ';') ',' false o
  let o := unnecessaryWords.foldl (fun acc w => removeWordCI w acc) o
  let o := redundantPhrases.foldl (fun acc pr => replacePhraseCI pr.1 pr.2 acc) o
  let o := collapseRunsAux isGoRegexSpace ' ' false o
  let o := trimCharList isGoTrimSpace o
  String.mk o

/-- Function `Optimizer.ShouldOptimize` (optimizer_service.go 333-336):
`len(input) > threshold` on the byte length of the input. -/
def shouldOptimize (input : String) (threshold : ℤ) : Bool :=
  decide ((input.utf8ByteSize : ℤ) > threshold)

/-- Structure `OptimizationResult` (optimizer_service.go 15-30); unset Go fields default
to zero values. -/
structure OptimizationResult where
  originalText : String := ""
  optimizedText : String := ""
  originalTokens : ℤ := 0
  optimizedTokens : ℤ := 0
  tokensSaved : ℤ := 0
  savingsPercent : ℚ := 0
  optimizationType : String := ""
  wasOptimized : Bool := false
  fallbackReason : String := ""
  optimizedPrompt : String := ""
  optimizedResponse : String := ""
  gemma3InputTokens : ℤ := 0
  userModelInputTokens : ℤ := 0
deriving DecidableEq

/-- The cheap `len/4` token estimate used for rule-based and AI-based sizing. -/
def lenDiv4 (s : String) : ℤ :=
  (s.utf8ByteSize : ℤ) / 4

/-- The successful-generation payload an adapter returns; only the fields the
optimizer consumes are modelled. -/
structure GenerateResponseE where
  text : String
  inputTokens : ℤ := 0
  outputTokens : ℤ := 0
deriving DecidableEq

/-- Go double- and single-quote trim: remove leading and trailing double or
single quotes. -/
def trimQuotes (s : String) : String :=
  String.mk (trimCharList (fun c => c = '"' || c = '\x27') s.data)

/-- Response-wrapper prefixes stripped by `cleanOptimizedResponse`
(optimizer_service.go 318-321). -/
def wrapperPrefixes : List String :=
  ["Optimized prompt:", "Optimized response:", "Optimized version:",
   "Here's the optimized version:", "The optimized version is:"]

/-- Go `strings.TrimSpace` on a string. -/
def trimSpaceStr (s : String) : String :=
  String.mk (trimCharList isGoTrimSpace s.data)

/-- Function `Optimizer.cleanOptimizedResponse` (optimizer_service.go 313-331). -/
def cleanOptimizedResponse (response : String) : String :=
  let r := trimQuotes response
  wrapperPrefixes.foldl
    (fun r pfx =>
      if pfx.isPrefixOf r then trimSpaceStr (r.drop pfx.length) else r)
    r

/-- Function `Optimizer.optimizePromptWithMode` (optimizer_service.go 358-444).  The
auxiliary backend call's outcome is passed in as `backend`; the Go function's
`error` return — which is `nil` on every path — is the second component. -/
def optimizePromptWithModeInner (originalPrompt _mode : String)
    (backend : Except ProviderErrorE GenerateResponseE) :
    OptimizationResult × Option String :=
  let base : OptimizationResult :=
    { originalText := originalPrompt, optimizationType := "prompt", wasOptimized := false }
  let ruleOptimized := applyRuleBasedOptimizations originalPrompt
  if ruleOptimized ≠ originalPrompt then
    let originalTokens := lenDiv4 originalPrompt
    let optimizedTokens := lenDiv4 ruleOptimized
    ({ base with
        optimizedText := ruleOptimized
        wasOptimized := true
        optimizationType := "rule_based"
        originalTokens := originalTokens
        optimizedTokens := optimizedTokens
        tokensSaved := originalTokens - optimizedTokens
        savingsPercent :=
          if 0 < originalTokens then
            ((originalTokens - optimizedTokens : ℚ) / (originalTokens : ℚ)) * 100
          else 0 }, none)
  else
    -- `mode` selects between the efficiency and context instruction texts for
    -- the single auxiliary call; the call's outcome is `backend`.
    match backend with
    | .error _ =>
      ({ base with
          fallbackReason := "ai_optimization_failed"
          optimizedText := originalPrompt
          wasOptimized := false
          originalTokens := lenDiv4 originalPrompt
          optimizedTokens := lenDiv4 originalPrompt
          tokensSaved := 0
          savingsPercent := 0 }, none)
    | .ok resp =>
      let optimizedPrompt := cleanOptimizedResponse (trimSpaceStr resp.text)
      if optimizedPrompt ≠ "" && optimizedPrompt ≠ originalPrompt then
        let originalTokens := lenDiv4 originalPrompt
        let optimizedTokens := lenDiv4 optimizedPrompt
        ({ base with
            optimizedText := optimizedPrompt
            wasOptimized := true
            optimizationType := "ai_based"
            optimizedPrompt := optimizedPrompt
            originalTokens := originalTokens
            optimizedTokens := optimizedTokens
            tokensSaved := originalTokens - optimizedTokens
            savingsPercent :=
              if 0 < originalTokens then
                ((originalTokens - optimizedTokens : ℚ) / (originalTokens : ℚ)) * 100
              else 0 }, none)
      else
        ({ base with
            optimizedText := originalPrompt
            wasOptimized := false
            originalTokens := lenDiv4 originalPrompt
            optimizedTokens := lenDiv4 originalPrompt
            tokensSaved := 0
            savingsPercent := 0 }, none)

/-- Function `Optimizer.OptimizePromptWithMode` (optimizer_service.go 351-356): any
mode other than `"efficiency"` is normalized to `"context"`. -/
def optimizePromptWithModeE (originalPrompt mode : String)
    (backend : Except ProviderErrorE GenerateResponseE) :
    OptimizationResult × Option String :=
  optimizePromptWithModeInner originalPrompt
    (if mode ≠ "efficiency" then "context" else mode) backend

/-! Section: Theorems settling the claims -/

/-- C1: the claim states that for an active account a balance adjustment
whose negative delta exceeds the balance succeeds and leaves the balance
negative ("insufficient funds never causes the adjustment to fail").  The
transaction body of `UpdateUserBalance` does the opposite: for an active user
with balance 5 and delta −10 it aborts with an insufficient-balance error —
contradicting the spec's overdraft policy and the code's own call sites,
which are commented "allows negative balance". -/
theorem updateUserBalance_rejects_overdraft :
    (User.mk "u1" "user@example.com" 5 "t1" true false).isActive = true ∧
    updateUserBalance (User.mk "u1" "user@example.com" 5 "t1" true false) (-10) =
      Except.error "insufficient balance" := by
  refine ⟨rfl, ?_⟩
  simp only [updateUserBalance]
  norm_num

/-- C2: the claim states that for every interleaving of reads to EOF followed
by `Close`, exactly one metering/logging pass occurs.  In the code, `Read`
sets `UsageLogged` at EOF without logging ("defer it to Close()"), and
`Close` logs only when `UsageLogged` is unset — so the read-to-EOF-then-close
interleaving performs zero metering passes, while close-before-EOF performs
one. -/
theorem esr_eof_then_close_skips_metering :
    (esrRun [ESREvent.read false, ESREvent.read true, ESREvent.close]).meterCount = 0 ∧
    (esrRun [ESREvent.read false, ESREvent.close]).meterCount = 1 := by
  decide

/-- C5: both cost functions implement the spec's formula — the
`GenerationService.CalculateCost` expression equals
`baseCost + markup` with `baseCost = inputTokens/1e6 * inputPrice +
outputTokens/1e6 * outputPrice` and `markup = inputCost * inMk/100 +
outputCost * outMk/100` — and on the spec's example (input $2/M, output $8/M,
10%/10% markup, 1,000,000 input and 500,000 output tokens) the firebase
`CalculateCost` returns total 6.60 and markup 0.60. -/
theorem calculateCost_formula_and_example :
    (∀ (inT outT : ℤ) (mc : ModelConfig) (inMk outMk : ℚ),
      gsCalculateCost inT outT mc inMk outMk =
        specTotal inT outT mc.inputPricePerMillion mc.outputPricePerMillion inMk outMk) ∧
    calculateCost
      [PricingTier.mk "t1" "Standard" 0 10 10 true false none]
      (User.mk "u1" "user@example.com" 100 "t1" true false)
      "m1" 1000000 500000 2 8 = Except.ok (33/5, 3/5) := by
  constructor
  · intro inT outT mc inMk outMk
    simp only [gsCalculateCost, specTotal, specBaseCost, specMarkup]
    ring
  · simp only [calculateCost, getPricingTier, List.find?]
    norm_num

/-- C6: every adapter's blocking-call usage is exactly the backend's reported
counts — in particular a zero report yields exactly zero, never an estimate.
The positive-count guard in each adapter is shown to be redundant: the
returned usage always equals the reported usage (with a missing Google
`UsageMetadata` counting as a (0, 0) report). -/
theorem adapters_usage_authentic :
    (∀ p c : ℕ, openAIReportedUsage p c = (p, c)) ∧
    (∀ m : Option (ℕ × ℕ), googleReportedUsage m = m.getD (0, 0)) ∧
    (∀ p c : ℕ, anthropicReportedUsage p c = (p, c)) ∧
    openAIReportedUsage 0 0 = (0, 0) ∧
    googleReportedUsage (some (0, 0)) = (0, 0) ∧
    googleReportedUsage none = (0, 0) := by
  refine ⟨?_, ?_, ?_, by decide, by decide, by decide⟩
  · intro p c
    simp only [openAIReportedUsage]
    split
    · rfl
    · rename_i h
      simp only [Bool.or_eq_true, decide_eq_true_eq, not_or] at h
      have hp : p = 0 := by omega
      have hc : c = 0 := by omega
      simp [hp, hc]
  · intro m
    match m with
    | none => rfl
    | some (p, c) =>
      simp only [googleReportedUsage, Option.getD_some]
      split
      · rfl
      · rename_i h
        simp only [Bool.or_eq_true, decide_eq_true_eq, not_or] at h
        have hp : p = 0 := by omega
        have hc : c = 0 := by omega
        simp [hp, hc]
  · intro p c
    simp only [anthropicReportedUsage]
    split
    · rfl
    · rename_i h
      simp only [Bool.or_eq_true, decide_eq_true_eq, not_or] at h
      have hp : p = 0 := by omega
      have hc : c = 0 := by omega
      simp [hp, hc]

/-- Once the OpenAI reader's latch is set, a single chunk never changes it. -/
lemma openAIStep_frozen (s : UsageLatch) (h : s.usageFound = true) (c : ℕ × ℕ) :
    openAIUsageStep s c = s := by
  simp [openAIUsageStep, h]

/-- Once the OpenAI reader's latch is set, no remaining chunk changes it. -/
lemma openAIFold_frozen (chunks : List (ℕ × ℕ)) (s : UsageLatch) (h : s.usageFound = true) :
    chunks.foldl openAIUsageStep s = s := by
  induction chunks with
  | nil => rfl
  | cons c rest ih => rw [List.foldl_cons, openAIStep_frozen s h c, ih]

/-- From an unlatched state, the OpenAI reader latches exactly the first
non-zero usage report of the stream. -/
lemma openAIFold_first (chunks : List (ℕ × ℕ)) (s : UsageLatch) (h : s.usageFound = false) :
    chunks.foldl openAIUsageStep s =
      match firstNonZeroUsage chunks with
      | some c => UsageLatch.mk c.1 c.2 true
      | none => s := by
  induction chunks generalizing s with
  | nil => rfl
  | cons c rest ih =>
    rw [List.foldl_cons]
    by_cases hc : (decide (0 < c.1) || decide (0 < c.2)) = true
    · have hstep : openAIUsageStep s c = UsageLatch.mk c.1 c.2 true := by
        simp [openAIUsageStep, h, hc]
      rw [hstep, openAIFold_frozen rest _ rfl]
      simp [firstNonZeroUsage, List.find?_cons, hc]
    · have hc' : (decide (0 < c.1) || decide (0 < c.2)) = false := by
        simpa using hc
      have hstep : openAIUsageStep s c = s := by
        simp [openAIUsageStep, hc']
      rw [hstep, ih s h]
      simp [firstNonZeroUsage, List.find?_cons, hc']

/-- C3 counterexample: the claim says a later non-zero usage report overwrites
an earlier one ("the backend's last word on usage wins").  The OpenAI stream
reader's latch is guarded by `!usageFound`, so on the stream
`[(10, 5), (10, 20)]` the exposed usage is the first report `(10, 5)`, not the
last non-zero report `(10, 20)`. -/
theorem openAIUsage_not_last_word_counterexample :
    (openAIUsageRun [(10, 5), (10, 20)]).inputTokens = 10 ∧
    (openAIUsageRun [(10, 5), (10, 20)]).outputTokens = 5 ∧
    specLastNonZeroUsage [(10, 5), (10, 20)] = some (10, 20) ∧
    ((10, 5) : ℕ × ℕ) ≠ (10, 20) := by
  decide

/-- C3 amended: the OpenAI stream reader latches the FIRST non-zero usage
report of the stream and never overwrites it; the Google stream reader's
three inspection blocks collapse to the rule that a unit's usage metadata
overwrites the latch exactly when nothing is latched yet or when the unit
reports both token counts positive (an all-zero metadata report still sets
the `usageFound` flag via the third block). -/
theorem streamUsage_latch_rule :
    (∀ chunks : List (ℕ × ℕ),
      ((openAIUsageRun chunks).inputTokens, (openAIUsageRun chunks).outputTokens)
         = (firstNonZeroUsage chunks).getD (0, 0) ∧
      (openAIUsageRun chunks).usageFound = (firstNonZeroUsage chunks).isSome) ∧
    (∀ (s : UsageLatch) (u : GoogleUnit),
      googleUsageStep s u =
        match u.usageMetadata with
        | some (p, c) =>
          if !s.usageFound || (decide (0 < p) && decide (0 < c)) then
            UsageLatch.mk p c true
          else s
        | none => s) := by
  constructor
  · intro chunks
    unfold openAIUsageRun
    rw [openAIFold_first chunks initLatch rfl]
    cases h : firstNonZeroUsage chunks <;> simp [initLatch]
  · intro s u
    obtain ⟨meta, ce⟩ := u
    cases meta with
    | none => cases hf : s.usageFound <;> simp [googleUsageStep, hf]
    | some pc =>
      obtain ⟨p, c⟩ := pc
      cases hf : s.usageFound <;> cases ce <;>
        by_cases hp : (0 < p) <;> by_cases hc : (0 < c) <;>
          simp [googleUsageStep, hf, hp, hc]

/-- C4 counterexample: the claim's retryability rule ("401 … → retryable =
false" for every adapter) fails for the Anthropic adapter, whose error branch
wraps every failed generate call — including a 401 authentication failure —
with `Retryable: true` and never inspects a status code. -/
theorem anthropic_retryable_ignores_status_counterexample :
    (anthropicGenerateError "claude-3-5-sonnet-20241022"
        "401 Unauthorized: invalid x-api-key").retryable = true ∧
    (anthropicGenerateError "claude-3-5-sonnet-20241022"
        "401 Unauthorized: invalid x-api-key").retryable ≠ false := by
  decide

/-- C4 amended: the OpenAI and Google adapters follow the rule — 401, 402,
403, 404 and 429 are not retryable, 5xx is retryable, and an absent status
code (0; the Google client also clamps any non-HTTP code to 0) defaults to
retryable — while the Anthropic adapter marks every failed generate call
retryable regardless of the failure's status. -/
theorem retryable_classification_rule :
    (∀ code : ℤ,
        code = 401 ∨ code = 402 ∨ code = 403 ∨ code = 404 ∨ code = 429 →
        classifyRetryable code = false) ∧
    (∀ code : ℤ, 500 ≤ code → code < 600 → classifyRetryable code = true) ∧
    classifyRetryable 0 = true ∧
    (∀ modelID errMsg : String, (anthropicGenerateError modelID errMsg).retryable = true) ∧
    (∀ rawCode : ℤ, googleStatusCode false rawCode = 0) := by
  refine ⟨?_, ?_, by decide, fun _ _ => rfl, fun _ => rfl⟩
  · intro code h
    rcases h with h | h | h | h | h <;> subst h <;> decide
  · intro code h1 h2
    simp only [classifyRetryable]
    split_ifs with hA hB
    · exfalso
      simp only [Bool.or_eq_true, beq_iff_eq] at hA
      omega
    · rfl
    · rfl

/-- Witness for C4's amended theorem at concrete status codes. -/
theorem retryable_classification_rule_witness :
    classifyRetryable 401 = false ∧ classifyRetryable 503 = true ∧
    classifyRetryable 0 = true ∧
    (anthropicGenerateError "claude-3-5-haiku-20241022" "connection reset").retryable = true :=
  ⟨retryable_classification_rule.1 401 (Or.inl rfl),
   retryable_classification_rule.2.1 503 (by norm_num) (by norm_num),
   retryable_classification_rule.2.2.1,
   retryable_classification_rule.2.2.2.1 "claude-3-5-haiku-20241022" "connection reset"⟩

/-- C9: `ShouldOptimize` returns `false` for every text whose byte length is
below the threshold, so no optimization pass or auxiliary backend call is
attempted for such texts (both orchestrator paths guard the optimizer behind
this test). -/
theorem shouldOptimize_short_is_false (input : String) (threshold : ℤ)
    (h : (input.utf8ByteSize : ℤ) < threshold) :
    shouldOptimize input threshold = false := by
  simp only [shouldOptimize, decide_eq_false_iff_not, not_lt]
  omega

/-- Witness for C9: the spec's example — a 40-character prompt against
threshold 50 is not optimized. -/
theorem shouldOptimize_short_is_false_witness :
    shouldOptimize "Explain the theory of relativity briefly" 50 = false :=
  shouldOptimize_short_is_false "Explain the theory of relativity briefly" 50 (by decide)

/-- C7: when the rule-based pass leaves the prompt unchanged (so the
auxiliary backend call is made) and that backend call fails,
`OptimizePromptWithMode` returns a nil error together with a result carrying
the original text unchanged, `wasOptimized = false` and the fallback reason
`ai_optimization_failed` — it never propagates the backend error. -/
theorem optimizer_fallback_on_backend_failure (originalPrompt mode : String)
    (e : ProviderErrorE)
    (h : applyRuleBasedOptimizations originalPrompt = originalPrompt) :
    optimizePromptWithModeE originalPrompt mode (Except.error e) =
      ({ originalText := originalPrompt, optimizationType := "prompt",
         wasOptimized := false, fallbackReason := "ai_optimization_failed",
         optimizedText := originalPrompt,
         originalTokens := lenDiv4 originalPrompt,
         optimizedTokens := lenDiv4 originalPrompt }, none) := by
  simp [optimizePromptWithModeE, optimizePromptWithModeInner, h]

/-- Witness for C7: a concrete prompt the rule-based pass leaves unchanged,
with an injected 503 backend failure. -/
theorem optimizer_fallback_on_backend_failure_witness :
    applyRuleBasedOptimizations "Summarize" = "Summarize" ∧
    optimizePromptWithModeE "Summarize" "context"
        (Except.error
          (ProviderErrorE.mk "google" "gemma-3-27b-it" 503 "" "backend unavailable" true)) =
      ({ originalText := "Summarize", optimizationType := "prompt",
         wasOptimized := false, fallbackReason := "ai_optimization_failed",
         optimizedText := "Summarize",
         originalTokens := lenDiv4 "Summarize",
         optimizedTokens := lenDiv4 "Summarize" }, none) :=
  ⟨by decide, optimizer_fallback_on_backend_failure "Summarize" "context" _ (by decide)⟩

/-- The running minimum kept by `pickMinSpend` never exceeds the accumulator
it started from. -/
lemma pickMinFold_le (l : List PricingTier) (b m : PricingTier)
    (h : l.foldl pickMinSpend (some b) = some m) :
    m.minMonthlySpend ≤ b.minMonthlySpend := by
  induction l generalizing b with
  | nil =>
    simp only [List.foldl_nil, Option.some.injEq] at h
    exact h ▸ le_refl _
  | cons t rest ih =>
    rw [List.foldl_cons] at h
    by_cases hlt : t.minMonthlySpend < b.minMonthlySpend
    · simp only [pickMinSpend, hlt, if_pos] at h
      exact le_trans (ih t h) (le_of_lt hlt)
    · simp only [pickMinSpend, hlt, if_neg, not_false_iff] at h
      exact ih b h

/-- The tier selected by folding `pickMinSpend` has minimal
`min_monthly_spend` among the folded list. -/
lemma pickMinFold_min (l : List PricingTier) (acc : Option PricingTier) (m : PricingTier)
    (h : l.foldl pickMinSpend acc = some m) :
    ∀ t ∈ l, m.minMonthlySpend ≤ t.minMonthlySpend := by
  induction l generalizing acc with
  | nil => simp
  | cons t rest ih =>
    intro x hx
    rw [List.foldl_cons] at h
    rcases List.mem_cons.mp hx with rfl | hx'
    · cases acc with
      | none =>
        simp only [pickMinSpend] at h
        exact pickMinFold_le rest x m h
      | some b =>
        simp only [pickMinSpend] at h
        by_cases hlt : x.minMonthlySpend < b.minMonthlySpend
        · rw [if_pos hlt] at h
          exact pickMinFold_le rest x m h
        · rw [if_neg hlt] at h
          exact le_trans (pickMinFold_le rest b m h) (le_of_not_lt hlt)
    · exact ih _ h x hx'

/-- The tier selected by folding `pickMinSpend` comes from the folded list or
was already the accumulator. -/
lemma pickMinFold_mem (l : List PricingTier) (acc : Option PricingTier) (m : PricingTier)
    (h : l.foldl pickMinSpend acc = some m) : m ∈ l ∨ acc = some m := by
  induction l generalizing acc with
  | nil =>
    right
    simpa using h
  | cons t rest ih =>
    rw [List.foldl_cons] at h
    rcases ih _ h with hmem | heq
    · exact Or.inl (List.mem_cons_of_mem _ hmem)
    · cases acc with
      | none =>
        simp only [pickMinSpend, Option.some.injEq] at heq
        exact Or.inl (heq ▸ List.mem_cons_self _ _)
      | some b =>
        by_cases hlt : t.minMonthlySpend < b.minMonthlySpend
        · simp only [pickMinSpend, hlt, if_pos, Option.some.injEq] at heq
          exact Or.inl (heq ▸ List.mem_cons_self _ _)
        · simp only [pickMinSpend, hlt, if_neg, not_false_iff] at heq
          exact Or.inr heq

/-- A tier returned by `getDefaultPricingTier` is active, non-custom, and has
the lowest `min_monthly_spend` among the store's active non-custom tiers. -/
lemma getDefault_spec (tiers : List PricingTier) (d : PricingTier)
    (h : getDefaultPricingTier tiers = some d) :
    d.isActive = true ∧ d.isCustom = false ∧
    ∀ t ∈ tiers, t.isActive = true → t.isCustom = false →
      d.minMonthlySpend ≤ t.minMonthlySpend := by
  have hmem : d ∈ tiers.filter isDefaultCandidate := by
    rcases pickMinFold_mem _ none d h with hmem | habs
    · exact hmem
    · cases habs
  have hcand : isDefaultCandidate d = true := (List.mem_filter.mp hmem).2
  simp only [isDefaultCandidate, Bool.and_eq_true, Bool.not_eq_true'] at hcand
  refine ⟨hcand.1, hcand.2, ?_⟩
  intro t ht hA hC
  have htf : t ∈ tiers.filter isDefaultCandidate :=
    List.mem_filter.mpr ⟨ht, by simp [isDefaultCandidate, hA, hC]⟩
  exact pickMinFold_min _ none d h t htf

/-- C8: when the user's pricing-tier lookup fails, `CalculateCost` does not
fail the request: it falls back to the default tier — the active, non-custom
tier with the lowest `min_monthly_spend` — and computes the cost with that
tier's markups (and, the fallback tier being non-custom, with the model's
public prices). -/
theorem tierLookupFailure_falls_back_to_default (tiers : List PricingTier)
    (user : User) (modelID : String) (inT outT : ℤ) (bIn bOut : ℚ) (d : PricingTier)
    (hLookup : getPricingTier tiers user.tierID = none)
    (hDefault : getDefaultPricingTier tiers = some d) :
    calculateCost tiers user modelID inT outT bIn bOut =
      Except.ok (specTotal inT outT bIn bOut d.inputMarkupPercent d.outputMarkupPercent,
                 specMarkup inT outT bIn bOut d.inputMarkupPercent d.outputMarkupPercent) ∧
    d.isActive = true ∧ d.isCustom = false ∧
    ∀ t ∈ tiers, t.isActive = true → t.isCustom = false →
      d.minMonthlySpend ≤ t.minMonthlySpend := by
  obtain ⟨hA, hC, hMin⟩ := getDefault_spec tiers d hDefault
  refine ⟨?_, hA, hC, hMin⟩
  simp only [calculateCost, hLookup, hDefault, hC, Bool.and_false, Bool.false_and,
    Bool.and_true, Bool.false_eq_true, if_false, Except.ok.injEq, Prod.mk.injEq,
    specTotal, specBaseCost, specMarkup]

/-- Witness for C8: a store whose only tier is the default and a user whose
tier id is missing from the store. -/
theorem tierLookupFailure_falls_back_to_default_witness :
    calculateCost
      [PricingTier.mk "base" "Base" 0 10 10 true false none]
      (User.mk "u1" "" 100 "missing" true false)
      "m1" 1000000 500000 2 8 =
      Except.ok (specTotal 1000000 500000 2 8 10 10, specMarkup 1000000 500000 2 8 10 10) :=
  (tierLookupFailure_falls_back_to_default
      [PricingTier.mk "base" "Base" 0 10 10 true false none]
      (User.mk "u1" "" 100 "missing" true false)
      "m1" 1000000 500000 2 8 (PricingTier.mk "base" "Base" 0 10 10 true false none)
      (by decide) (by decide)).1

/-- C10 counterexample: the claim says the override is used *exactly when*
the account is flagged for custom pricing and the tier has an override for
the model.  Here the account is flagged and the tier carries an override for
"m1", yet because the tier is not marked `IsCustom`, `CalculateCost` bills
with the public prices ($2/$8, total 10) instead of the override ($1/$1,
total 2). -/
theorem customPricing_requires_isCustom_counterexample :
    (User.mk "u1" "" 0 "t1" true true).customPricing = true ∧
    (PricingTier.mk "t1" "X" 0 0 0 true false
        (some [("m1", ModelPricing.mk "m1" "openai" 1 1)])).isCustom = false ∧
    lookupModelPricing [("m1", ModelPricing.mk "m1" "openai" 1 1)] "m1" =
      some (ModelPricing.mk "m1" "openai" 1 1) ∧
    calculateCost
      [PricingTier.mk "t1" "X" 0 0 0 true false
          (some [("m1", ModelPricing.mk "m1" "openai" 1 1)])]
      (User.mk "u1" "" 0 "t1" true true) "m1" 1000000 1000000 2 8 =
      Except.ok (10, 0) ∧
    specTotal 1000000 1000000 1 1 0 0 = 2 ∧
    ((10 : ℚ) ≠ 2) := by
  refine ⟨rfl, rfl, rfl, ?_, ?_, by norm_num⟩
  · simp only [calculateCost, getPricingTier, List.find?]
    norm_num
  · simp only [specTotal, specBaseCost, specMarkup]
    norm_num

/-- C10 amended: the effective per-token prices are the tier's per-model
override exactly when the account is flagged for custom pricing AND the tier
is marked custom AND the tier's override map contains the requested model; in
every other case — including a custom tier with an empty or absent override
map — the model's public prices are used with the tier's percentage
markups. -/
theorem effectivePrices_selection_rule :
    (∀ (tiers : List PricingTier) (user : User) (modelID : String) (inT outT : ℤ)
        (bIn bOut : ℚ) (tier : PricingTier) (m : List (String × ModelPricing))
        (mp : ModelPricing),
      getPricingTier tiers user.tierID = some tier →
      user.customPricing = true → tier.isCustom = true →
      tier.customModelPricing = some m →
      lookupModelPricing m modelID = some mp →
      calculateCost tiers user modelID inT outT bIn bOut =
        Except.ok
          (specTotal inT outT mp.inputPricePerMillion mp.outputPricePerMillion
             tier.inputMarkupPercent tier.outputMarkupPercent,
           specMarkup inT outT mp.inputPricePerMillion mp.outputPricePerMillion
             tier.inputMarkupPercent tier.outputMarkupPercent)) ∧
    (∀ (tiers : List PricingTier) (user : User) (modelID : String) (inT outT : ℤ)
        (bIn bOut : ℚ) (tier : PricingTier),
      getPricingTier tiers user.tierID = some tier →
      (user.customPricing = false ∨ tier.isCustom = false ∨
        tier.customModelPricing = none ∨
        (∃ m, tier.customModelPricing = some m ∧ lookupModelPricing m modelID = none)) →
      calculateCost tiers user modelID inT outT bIn bOut =
        Except.ok
          (specTotal inT outT bIn bOut tier.inputMarkupPercent tier.outputMarkupPercent,
           specMarkup inT outT bIn bOut tier.inputMarkupPercent tier.outputMarkupPercent)) := by
  constructor
  · intro tiers user modelID inT outT bIn bOut tier m mp hTier hCP hIC hCMP hLk
    simp only [calculateCost, hTier, hCP, hIC, hCMP, hLk, Option.isSome_some,
      Bool.and_self, Bool.and_true, Bool.true_and, if_true, Except.ok.injEq,
      Prod.mk.injEq, specTotal, specBaseCost, specMarkup]
  · intro tiers user modelID inT outT bIn bOut tier hTier hcases
    rcases hcases with hCP | hIC | hNone | ⟨m, hSome, hNoLk⟩
    · simp only [calculateCost, hTier, hCP, Bool.false_and, Bool.false_eq_true, if_false,
        Except.ok.injEq, Prod.mk.injEq, specTotal, specBaseCost, specMarkup]
    · simp only [calculateCost, hTier, hIC, Bool.and_false, Bool.false_and,
        Bool.false_eq_true, if_false, Except.ok.injEq, Prod.mk.injEq,
        specTotal, specBaseCost, specMarkup]
    · simp only [calculateCost, hTier, hNone, Option.isSome_none, Bool.and_false,
        Bool.false_eq_true, if_false, Except.ok.injEq, Prod.mk.injEq,
        specTotal, specBaseCost, specMarkup]
    · simp only [calculateCost, hTier, hSome, hNoLk, Option.isSome_some, Bool.and_true,
        Except.ok.injEq, Prod.mk.injEq, specTotal, specBaseCost, specMarkup]
      split_ifs <;> exact ⟨rfl, rfl⟩

/-- Witness for C10's amended theorem: a flagged user on a custom tier with an
override for the requested model is billed at the override prices. -/
theorem effectivePrices_selection_rule_witness :
    calculateCost
      [PricingTier.mk "t2" "Custom" 0 0 0 true true
          (some [("m1", ModelPricing.mk "m1" "openai" 1 1)])]
      (User.mk "u2" "" 0 "t2" true true) "m1" 1000000 1000000 2 8 =
      Except.ok
        (specTotal 1000000 1000000 1 1 0 0,
         specMarkup 1000000 1000000 1 1 0 0) :=
  effectivePrices_selection_rule.1
    [PricingTier.mk "t2" "Custom" 0 0 0 true true
        (some [("m1", ModelPricing.mk "m1" "openai" 1 1)])]
    (User.mk "u2" "" 0 "t2" true true) "m1" 1000000 1000000 2 8
    (PricingTier.mk "t2" "Custom" 0 0 0 true true
        (some [("m1", ModelPricing.mk "m1" "openai" 1 1)]))
    [("m1", ModelPricing.mk "m1" "openai" 1 1)]
    (ModelPricing.mk "m1" "openai" 1 1)
    rfl rfl rfl rfl rfl

end AptRouter
